import Mathlib

/-!
Verification of the scoring engine of the World Athletics points calculator.

The Rust source is shallowly embedded: `f64` arithmetic is modelled by exact
rational arithmetic (`ℚ`), `HashMap K V` by `K → Option V`, fallible Rust
functions returning `Result` by `Except String`, and the process-wide
`OnceCell`/`OnceLock` statics by explicit `Option`-valued state threaded
through the operations.  Event enumerations, the canonical display strings,
the adjustment rules, the coefficient-based result score and the placement
score dispatch are translated directly from
`src/models/performance.rs`, `src/scoring_logic/calculator.rs`,
`src/scoring_logic/coefficients.rs` and `src/scoring_logic/placement_score.rs`.
-/

namespace WA

/-- Gender, from `src/models/performance.rs`. -/
inductive Gender
| Men
| Women
deriving DecidableEq

/-- `impl fmt::Display for Gender`. -/
def Gender.to_string : Gender → String
| Gender.Men => "men"
| Gender.Women => "women"

/-- Track & field events, from `src/models/performance.rs` (the commented-out
variants of the source are omitted exactly as there). -/
inductive TrackAndFieldEvent
| M50
| M55
| M60
| M100
| M200
| M300
| M400
| M500
| M600
| M800
| M1000
| M1500
| M2000
| M3000
| M5000
| M10000
| M50H
| M55H
| M60H
| M100H
| M110H
| M400H
| M2000mSC
| M3000mSC
| M4x100m
| M4x200m
| M4x400m
| M4x400mix
| LJ
| TJ
| HJ
| PV
| SP
| DT
| HT
| JT
| M200mSh
| M300mSh
| M400mSh
| M500mSh
| M600mSh
| M800mSh
| M1000mSh
| M1500mSh
| M2000mSh
| M3000mSh
| M5000mSh
| MileSh
| M2MilesSh
| M4x200mSh
| M4x400mSh
| M4x400mixSh
deriving DecidableEq

/-- Combined events. -/
inductive CombinedEvent
| Dec
| Hept
| HeptSh
| PentSh
deriving DecidableEq

/-- Road running events. -/
inductive RoadRunningEvent
| Road5km
| Road10km
| Road15km
| Road20km
| Road25km
| Road30km
| RoadHM
| RoadMarathon
| Road10Miles
| RoadMile
deriving DecidableEq

/-- Race walking events. -/
inductive RaceWalkingEvent
| Road5kmW
| Road10kmW
| Road15kmW
| Road20kmW
| Road30kmW
| Road35kmW
| Road50kmW
| M3000mW
| M5000mW
| M15000mW
| M20000mW
| M30000mW
| M35000mW
| M50000mW
deriving DecidableEq

/-- Cross country events. -/
inductive CrossCountryEvent
| GenericXC
deriving DecidableEq

/-- The combined event enum. -/
inductive Event
| TrackAndField (e : TrackAndFieldEvent)
| CombinedEvents (e : CombinedEvent)
| RoadRunning (e : RoadRunningEvent)
| RaceWalking (e : RaceWalkingEvent)
| CrossCountry (e : CrossCountryEvent)
deriving DecidableEq

/-- `impl fmt::Display for Event`: the canonical display string, used as the
coefficient-table key and in round-trip string conversion. -/
def Event.to_string : Event → String
| Event.TrackAndField e => match e with
  | TrackAndFieldEvent.M50 => "50m"
  | TrackAndFieldEvent.M55 => "55m"
  | TrackAndFieldEvent.M60 => "60m"
  | TrackAndFieldEvent.M100 => "100m"
  | TrackAndFieldEvent.M200 => "200m"
  | TrackAndFieldEvent.M300 => "300m"
  | TrackAndFieldEvent.M400 => "400m"
  | TrackAndFieldEvent.M500 => "500m"
  | TrackAndFieldEvent.M600 => "600m"
  | TrackAndFieldEvent.M800 => "800m"
  | TrackAndFieldEvent.M1000 => "1000m"
  | TrackAndFieldEvent.M1500 => "1500m"
  | TrackAndFieldEvent.M2000 => "2000m"
  | TrackAndFieldEvent.M3000 => "3000m"
  | TrackAndFieldEvent.M5000 => "5000m"
  | TrackAndFieldEvent.M10000 => "10000m"
  | TrackAndFieldEvent.M50H => "50m Hurdle"
  | TrackAndFieldEvent.M55H => "55m Hurdle"
  | TrackAndFieldEvent.M60H => "60m Hurdle"
  | TrackAndFieldEvent.M100H => "100m Hurdle"
  | TrackAndFieldEvent.M110H => "110m Hurdle"
  | TrackAndFieldEvent.M400H => "400m Hurdle"
  | TrackAndFieldEvent.M2000mSC => "2000m SC"
  | TrackAndFieldEvent.M3000mSC => "3000m SC"
  | TrackAndFieldEvent.M4x100m => "4x100m"
  | TrackAndFieldEvent.M4x200m => "4x200m"
  | TrackAndFieldEvent.M4x400m => "4x400m"
  | TrackAndFieldEvent.M4x400mix => "4x400mix"
  | TrackAndFieldEvent.LJ => "Long Jump"
  | TrackAndFieldEvent.TJ => "Triple Jump"
  | TrackAndFieldEvent.HJ => "High Jump"
  | TrackAndFieldEvent.PV => "Pole Vault"
  | TrackAndFieldEvent.SP => "Shot Put"
  | TrackAndFieldEvent.DT => "Discus Throw"
  | TrackAndFieldEvent.HT => "Hammer Throw"
  | TrackAndFieldEvent.JT => "Javelin Throw"
  | TrackAndFieldEvent.M200mSh => "200m short track"
  | TrackAndFieldEvent.M300mSh => "300m short track"
  | TrackAndFieldEvent.M400mSh => "400m short track"
  | TrackAndFieldEvent.M500mSh => "500m short track"
  | TrackAndFieldEvent.M600mSh => "600m short track"
  | TrackAndFieldEvent.M800mSh => "800m short track"
  | TrackAndFieldEvent.M1000mSh => "1000m short track"
  | TrackAndFieldEvent.M1500mSh => "1500m short track"
  | TrackAndFieldEvent.M2000mSh => "2000m short track"
  | TrackAndFieldEvent.M3000mSh => "3000m short track"
  | TrackAndFieldEvent.M5000mSh => "5000m short track"
  | TrackAndFieldEvent.MileSh => "Mile short track"
  | TrackAndFieldEvent.M2MilesSh => "2 Miles short track"
  | TrackAndFieldEvent.M4x200mSh => "4x200m short track"
  | TrackAndFieldEvent.M4x400mSh => "4x400m short track"
  | TrackAndFieldEvent.M4x400mixSh => "4x400mix short track"
| Event.CombinedEvents e => match e with
  | CombinedEvent.Dec => "Dec."
  | CombinedEvent.HeptSh => "Hept. short track"
  | CombinedEvent.PentSh => "Pent. short track"
  | CombinedEvent.Hept => "Hept."
| Event.RoadRunning e => match e with
  | RoadRunningEvent.Road5km => "Road 5 km"
  | RoadRunningEvent.Road10km => "Road 10 km"
  | RoadRunningEvent.Road15km => "Road 15 km"
  | RoadRunningEvent.Road20km => "Road 20 km"
  | RoadRunningEvent.Road25km => "Road 25 km"
  | RoadRunningEvent.Road30km => "Road 30 km"
  | RoadRunningEvent.RoadHM => "Road HM"
  | RoadRunningEvent.RoadMarathon => "Road Marathon"
  | RoadRunningEvent.Road10Miles => "Road 10 Miles"
  | RoadRunningEvent.RoadMile => "Road Mile"
| Event.RaceWalking e => match e with
  | RaceWalkingEvent.Road5kmW => "Road 5km Walk"
  | RaceWalkingEvent.Road10kmW => "Road 10km Walk"
  | RaceWalkingEvent.Road15kmW => "Road 15km Walk"
  | RaceWalkingEvent.Road20kmW => "Road 20km Walk"
  | RaceWalkingEvent.Road30kmW => "Road 30km Walk"
  | RaceWalkingEvent.Road35kmW => "Road 35km Walk"
  | RaceWalkingEvent.Road50kmW => "Road 50km Walk"
  | RaceWalkingEvent.M3000mW => "3000m Walk"
  | RaceWalkingEvent.M5000mW => "5000m Walk"
  | RaceWalkingEvent.M15000mW => "15,000m Walk"
  | RaceWalkingEvent.M20000mW => "20,000m Walk"
  | RaceWalkingEvent.M30000mW => "30,000m Walk"
  | RaceWalkingEvent.M35000mW => "35,000m Walk"
  | RaceWalkingEvent.M50000mW => "50,000m Walk"
| Event.CrossCountry e => match e with
  | CrossCountryEvent.GenericXC => "GenericXC"

/-- `Event::all_variants`, in the declaration (iteration) order of the source. -/
def Event.all_variants : List Event :=
  [Event.TrackAndField TrackAndFieldEvent.M50,
   Event.TrackAndField TrackAndFieldEvent.M55,
   Event.TrackAndField TrackAndFieldEvent.M60,
   Event.TrackAndField TrackAndFieldEvent.M100,
   Event.TrackAndField TrackAndFieldEvent.M200,
   Event.TrackAndField TrackAndFieldEvent.M300,
   Event.TrackAndField TrackAndFieldEvent.M400,
   Event.TrackAndField TrackAndFieldEvent.M500,
   Event.TrackAndField TrackAndFieldEvent.M600,
   Event.TrackAndField TrackAndFieldEvent.M800,
   Event.TrackAndField TrackAndFieldEvent.M1000,
   Event.TrackAndField TrackAndFieldEvent.M1500,
   Event.TrackAndField TrackAndFieldEvent.M2000,
   Event.TrackAndField TrackAndFieldEvent.M3000,
   Event.TrackAndField TrackAndFieldEvent.M5000,
   Event.TrackAndField TrackAndFieldEvent.M10000,
   Event.TrackAndField TrackAndFieldEvent.M50H,
   Event.TrackAndField TrackAndFieldEvent.M55H,
   Event.TrackAndField TrackAndFieldEvent.M60H,
   Event.TrackAndField TrackAndFieldEvent.M100H,
   Event.TrackAndField TrackAndFieldEvent.M110H,
   Event.TrackAndField TrackAndFieldEvent.M400H,
   Event.TrackAndField TrackAndFieldEvent.M2000mSC,
   Event.TrackAndField TrackAndFieldEvent.M3000mSC,
   Event.TrackAndField TrackAndFieldEvent.M4x100m,
   Event.TrackAndField TrackAndFieldEvent.M4x200m,
   Event.TrackAndField TrackAndFieldEvent.M4x400m,
   Event.TrackAndField TrackAndFieldEvent.M4x400mix,
   Event.TrackAndField TrackAndFieldEvent.LJ,
   Event.TrackAndField TrackAndFieldEvent.TJ,
   Event.TrackAndField TrackAndFieldEvent.HJ,
   Event.TrackAndField TrackAndFieldEvent.PV,
   Event.TrackAndField TrackAndFieldEvent.SP,
   Event.TrackAndField TrackAndFieldEvent.DT,
   Event.TrackAndField TrackAndFieldEvent.HT,
   Event.TrackAndField TrackAndFieldEvent.JT,
   Event.TrackAndField TrackAndFieldEvent.M200mSh,
   Event.TrackAndField TrackAndFieldEvent.M300mSh,
   Event.TrackAndField TrackAndFieldEvent.M400mSh,
   Event.TrackAndField TrackAndFieldEvent.M500mSh,
   Event.TrackAndField TrackAndFieldEvent.M600mSh,
   Event.TrackAndField TrackAndFieldEvent.M800mSh,
   Event.TrackAndField TrackAndFieldEvent.M1000mSh,
   Event.TrackAndField TrackAndFieldEvent.M1500mSh,
   Event.TrackAndField TrackAndFieldEvent.M2000mSh,
   Event.TrackAndField TrackAndFieldEvent.M3000mSh,
   Event.TrackAndField TrackAndFieldEvent.M5000mSh,
   Event.TrackAndField TrackAndFieldEvent.MileSh,
   Event.TrackAndField TrackAndFieldEvent.M2MilesSh,
   Event.TrackAndField TrackAndFieldEvent.M4x200mSh,
   Event.TrackAndField TrackAndFieldEvent.M4x400mSh,
   Event.TrackAndField TrackAndFieldEvent.M4x400mixSh,
   Event.CombinedEvents CombinedEvent.Dec,
   Event.CombinedEvents CombinedEvent.Hept,
   Event.CombinedEvents CombinedEvent.HeptSh,
   Event.CombinedEvents CombinedEvent.PentSh,
   Event.RoadRunning RoadRunningEvent.Road5km,
   Event.RoadRunning RoadRunningEvent.Road10km,
   Event.RoadRunning RoadRunningEvent.Road15km,
   Event.RoadRunning RoadRunningEvent.Road20km,
   Event.RoadRunning RoadRunningEvent.Road25km,
   Event.RoadRunning RoadRunningEvent.Road30km,
   Event.RoadRunning RoadRunningEvent.RoadHM,
   Event.RoadRunning RoadRunningEvent.RoadMarathon,
   Event.RoadRunning RoadRunningEvent.Road10Miles,
   Event.RoadRunning RoadRunningEvent.RoadMile,
   Event.RaceWalking RaceWalkingEvent.Road5kmW,
   Event.RaceWalking RaceWalkingEvent.Road10kmW,
   Event.RaceWalking RaceWalkingEvent.Road15kmW,
   Event.RaceWalking RaceWalkingEvent.Road20kmW,
   Event.RaceWalking RaceWalkingEvent.Road30kmW,
   Event.RaceWalking RaceWalkingEvent.Road35kmW,
   Event.RaceWalking RaceWalkingEvent.Road50kmW,
   Event.RaceWalking RaceWalkingEvent.M3000mW,
   Event.RaceWalking RaceWalkingEvent.M5000mW,
   Event.RaceWalking RaceWalkingEvent.M15000mW,
   Event.RaceWalking RaceWalkingEvent.M20000mW,
   Event.RaceWalking RaceWalkingEvent.M30000mW,
   Event.RaceWalking RaceWalkingEvent.M35000mW,
   Event.RaceWalking RaceWalkingEvent.M50000mW,
   Event.CrossCountry CrossCountryEvent.GenericXC]

/-- `Event::from_string`: linear scan over all variants comparing display
strings. -/
def Event.from_string (s : String) : Option Event :=
  Event.all_variants.find? (fun variant => variant.to_string == s)

/-- Time- vs distance-measured events. -/
inductive PerformanceType
| Time
| Distance
deriving DecidableEq

/-- `Event::performance_type`. -/
def Event.performance_type : Event → PerformanceType
| Event.TrackAndField TrackAndFieldEvent.LJ => PerformanceType.Distance
| Event.TrackAndField TrackAndFieldEvent.TJ => PerformanceType.Distance
| Event.TrackAndField TrackAndFieldEvent.HJ => PerformanceType.Distance
| Event.TrackAndField TrackAndFieldEvent.PV => PerformanceType.Distance
| Event.TrackAndField TrackAndFieldEvent.SP => PerformanceType.Distance
| Event.TrackAndField TrackAndFieldEvent.DT => PerformanceType.Distance
| Event.TrackAndField TrackAndFieldEvent.HT => PerformanceType.Distance
| Event.TrackAndField TrackAndFieldEvent.JT => PerformanceType.Distance
| _ => PerformanceType.Time

/-- Placement score event groups, from `src/scoring_logic/placement_score.rs`. -/
inductive PlacementScoreEventGroup
| TrackAndField
| Distance5000m3000mSC
| Distance10000m
| Road10km
| CombinedEvent
| RoadMarathon
| HalfMarathon
| RoadRunning
| RaceWalking20Km
| RaceWalking35Km
| RaceWalking35KmSimilar
| CrossCountry
deriving DecidableEq

/-- Round types for placement scoring. -/
inductive RoundType
| Final
| SemiFinal
| Other
deriving DecidableEq

/-- `Event::to_placement_score_event_group`, translated arm by arm (the
catch-all arms of the source come after the specific ones, as in the Rust
`match`). -/
def Event.to_placement_score_event_group : Event → PlacementScoreEventGroup
| Event.TrackAndField TrackAndFieldEvent.M5000 => PlacementScoreEventGroup.Distance5000m3000mSC
| Event.TrackAndField TrackAndFieldEvent.M3000mSC => PlacementScoreEventGroup.Distance5000m3000mSC
| Event.TrackAndField TrackAndFieldEvent.M10000 => PlacementScoreEventGroup.Distance10000m
| Event.RoadRunning RoadRunningEvent.Road10km => PlacementScoreEventGroup.Road10km
| Event.RoadRunning RoadRunningEvent.RoadMarathon => PlacementScoreEventGroup.RoadMarathon
| Event.RoadRunning RoadRunningEvent.RoadHM => PlacementScoreEventGroup.HalfMarathon
| Event.RoadRunning RoadRunningEvent.Road30km => PlacementScoreEventGroup.HalfMarathon
| Event.RoadRunning RoadRunningEvent.Road25km => PlacementScoreEventGroup.HalfMarathon
| Event.RaceWalking RaceWalkingEvent.M20000mW => PlacementScoreEventGroup.RaceWalking20Km
| Event.RaceWalking RaceWalkingEvent.Road20kmW => PlacementScoreEventGroup.RaceWalking20Km
| Event.RaceWalking RaceWalkingEvent.Road5kmW => PlacementScoreEventGroup.RaceWalking20Km
| Event.RaceWalking RaceWalkingEvent.Road10kmW => PlacementScoreEventGroup.RaceWalking20Km
| Event.RaceWalking RaceWalkingEvent.Road15kmW => PlacementScoreEventGroup.RaceWalking20Km
| Event.RaceWalking RaceWalkingEvent.M3000mW => PlacementScoreEventGroup.RaceWalking20Km
| Event.RaceWalking RaceWalkingEvent.M5000mW => PlacementScoreEventGroup.RaceWalking20Km
| Event.RaceWalking RaceWalkingEvent.M15000mW => PlacementScoreEventGroup.RaceWalking20Km
| Event.RaceWalking RaceWalkingEvent.M35000mW => PlacementScoreEventGroup.RaceWalking35Km
| Event.RaceWalking RaceWalkingEvent.Road35kmW => PlacementScoreEventGroup.RaceWalking35Km
| Event.RaceWalking _ => PlacementScoreEventGroup.RaceWalking35KmSimilar
| Event.TrackAndField _ => PlacementScoreEventGroup.TrackAndField
| Event.CombinedEvents _ => PlacementScoreEventGroup.CombinedEvent
| Event.RoadRunning _ => PlacementScoreEventGroup.RoadRunning
| Event.CrossCountry _ => PlacementScoreEventGroup.CrossCountry

/-- Competition categories. -/
inductive CompetitionCategory
| F
| E
| D
| C
| B
| A
| GL
| GW
| DF
| OW
deriving DecidableEq

/-- Caller-supplied placement information, from `src/models/performance.rs`. -/
structure PlacementInfo where
  competition_category : CompetitionCategory
  place : ℤ
  round : RoundType
  size_of_final : ℤ
  qualified_to_final : Bool

/-- The orchestrator input, from `src/models/performance.rs`.  `f64` fields
are modelled by `ℚ`. -/
structure WorldAthleticsScoreInput where
  gender : Gender
  event : Event
  performance : ℚ
  wind_speed : Option ℚ
  net_downhill : Option ℚ
  placement_info : Option PlacementInfo

/-- `is_road_running_event`, from `src/scoring_logic/calculator.rs`. -/
def is_road_running_event : Event → Bool
| Event.RoadRunning _ => true
| _ => false

/-- `is_wind_affected_event`, from `src/scoring_logic/calculator.rs`. -/
def is_wind_affected_event : Event → Bool
| Event.TrackAndField TrackAndFieldEvent.M100 => true
| Event.TrackAndField TrackAndFieldEvent.M200 => true
| Event.TrackAndField TrackAndFieldEvent.M100H => true
| Event.TrackAndField TrackAndFieldEvent.M110H => true
| Event.TrackAndField TrackAndFieldEvent.LJ => true
| Event.TrackAndField TrackAndFieldEvent.TJ => true
| _ => false

/-- `calculate_wind_adjustment`, from `src/scoring_logic/calculator.rs`.
The `f64` constants `POINTS_PER_M_S = 6.0`, `NWI_PENALTY = -30.0` and
`TAILWIND_THRESHOLD = 2.0` are exact rationals. -/
def calculate_wind_adjustment (wind_speed : Option ℚ) : ℚ :=
  match wind_speed with
  | some wind_value =>
      if wind_value > 0 then
        if wind_value > 2 then -(wind_value * 6) else 0
      else
        -wind_value * 6
  | none => -30

/-- `calculate_downhill_adjustment`, from `src/scoring_logic/calculator.rs`. -/
def calculate_downhill_adjustment (net_downhill : Option ℚ) : ℚ :=
  match net_downhill with
  | some drop =>
      if drop ≤ 1 then 0
      else
        let excess := drop - 1
        let deduction_base : ℚ := 6
        let deduction_additional := (excess * 10) * (6 / 10)
        (-(deduction_base + deduction_additional))
  | none => 0

/-- Input bundle for placement scoring, from
`src/scoring_logic/placement_score.rs`. -/
structure PlacementScoreCalcInput where
  event : Event
  competition_category : CompetitionCategory
  round_type : RoundType
  place : ℤ
  qualified_to_final : Bool
  size_of_final : ℤ

/-- `calculate_world_athletics_score`, from `src/scoring_logic/calculator.rs`:
the score orchestrator with the two resolver callbacks injected. -/
def calculate_world_athletics_score (input : WorldAthleticsScoreInput)
    (result_score_calculator : ℚ → Gender → String → Except String ℚ)
    (placement_score_calculator : PlacementScoreCalcInput → Option ℤ) :
    Except String ℚ :=
  let event_id := input.event.to_string
  match result_score_calculator input.performance input.gender event_id with
  | Except.error e => Except.error e
  | Except.ok score0 =>
    let score1 :=
      if is_wind_affected_event input.event then
        score0 + calculate_wind_adjustment input.wind_speed
      else score0
    let score2 :=
      if is_road_running_event input.event then
        score1 + calculate_downhill_adjustment input.net_downhill
      else score1
    let placing_score : ℤ :=
      match input.placement_info with
      | some placement_info =>
          (placement_score_calculator
            { event := input.event
              competition_category := placement_info.competition_category
              round_type := placement_info.round
              place := placement_info.place
              qualified_to_final := placement_info.qualified_to_final
              size_of_final := placement_info.size_of_final }).getD 0
      | none => 0
    Except.ok (score2 + (placing_score : ℚ))

/-- The three coefficients of a quadratic curve, from
`src/scoring_logic/coefficients.rs` (`f64` modelled by `ℚ`). -/
structure Coefficients where
  conversion_factor : ℚ
  result_shift : ℚ
  point_shift : ℚ

/-- Per-gender coefficient map: `HashMap<String, RawCoefficients>` modelled as
a partial function (the `RawCoefficients → Coefficients` conversion of the
source is the identity on the triple, so it is elided). -/
structure GenderCoefficients where
  events : String → Option Coefficients

/-- The whole coefficient table. -/
structure CoefficientsTable where
  men : GenderCoefficients
  women : GenderCoefficients

/-- `CoefficientsTable::get_coefficients`. -/
def CoefficientsTable.get_coefficients (self : CoefficientsTable)
    (gender : Gender) (event_name : String) : Option Coefficients :=
  let gender_map :=
    match gender with
    | Gender.Men => self.men.events
    | Gender.Women => self.women.events
  gender_map event_name

/-- Rust `f64::round`: round to the nearest integer, ties away from zero,
expressed over `ℚ`. -/
def rust_round (q : ℚ) : ℚ :=
  if q < 0 then (-((round (-q) : ℤ) : ℚ)) else ((round q : ℤ) : ℚ)

/-- `CoefficientsTable::calculate_result_score`: quadratic formula and the
`Coefficients not found` error message, whose gender component is the debug
rendering (with quotation marks) of `gender.to_string()`. -/
def CoefficientsTable.calculate_result_score (self : CoefficientsTable)
    (result : ℚ) (gender : Gender) (event_name : String) : Except String ℚ :=
  match self.get_coefficients gender event_name with
  | none =>
      Except.error ("Coefficients not found for gender \"" ++ gender.to_string
        ++ "\" and event: " ++ event_name)
  | some coefficients =>
      let raw_points := coefficients.conversion_factor * result * result
        + coefficients.result_shift * result
        + coefficients.point_shift
      Except.ok (rust_round raw_points)

/-- Free function `calculate_result_score` of `src/scoring_logic/coefficients.rs`:
the `OnceCell` static `COEFFICIENTS` is modelled as an explicit
`Option CoefficientsTable` state. -/
def calculate_result_score (state : Option CoefficientsTable)
    (result : ℚ) (gender : Gender) (event_name : String) : Except String ℚ :=
  match state with
  | none => Except.error "Coefficients not loaded. Call load_coefficients() first."
  | some coefficients => coefficients.calculate_result_score result gender event_name

/-- `load_coefficients` of `src/scoring_logic/coefficients.rs`.  The serde
parse of the embedded JSON dataset is modelled by the `parsed` argument
(already carrying the `Failed to parse coefficients JSON` prefix on failure,
as produced by the `map_err` of the source); `OnceCell::set` succeeds exactly
when the cell is empty and otherwise leaves it unchanged.  Returns the
`Result` together with the new state of the static. -/
def load_coefficients (state : Option CoefficientsTable)
    (parsed : Except String CoefficientsTable) :
    Except String Unit × Option CoefficientsTable :=
  match parsed with
  | Except.error e => (Except.error e, state)
  | Except.ok table =>
      match state with
      | none => (Except.ok (), some table)
      | some old => (Except.error "Coefficients already loaded.", some old)

/-- The sixteen placement sub-tables, from
`src/scoring_logic/placement_score.rs`; each
`HashMap<CompetitionCategory, HashMap<i32, i32>>` is modelled as a nested
partial function. -/
structure PlacementScoreData where
  track_field_final : CompetitionCategory → Option (ℤ → Option ℤ)
  track_field_semi_max9 : CompetitionCategory → Option (ℤ → Option ℤ)
  track_field_semi_10plus : CompetitionCategory → Option (ℤ → Option ℤ)
  distance_5000m_3000mSC_final : CompetitionCategory → Option (ℤ → Option ℤ)
  distance_5000m_3000mSC_semi_max9 : CompetitionCategory → Option (ℤ → Option ℤ)
  distance_5000m_3000mSC_semi_10plus : CompetitionCategory → Option (ℤ → Option ℤ)
  distance_10000m_final : CompetitionCategory → Option (ℤ → Option ℤ)
  road_10km_final : CompetitionCategory → Option (ℤ → Option ℤ)
  combined_events : CompetitionCategory → Option (ℤ → Option ℤ)
  road_marathon : CompetitionCategory → Option (ℤ → Option ℤ)
  half_marathon_similar_event : CompetitionCategory → Option (ℤ → Option ℤ)
  road_running_event_group : CompetitionCategory → Option (ℤ → Option ℤ)
  race_walking_20km : CompetitionCategory → Option (ℤ → Option ℤ)
  race_walking_35km : CompetitionCategory → Option (ℤ → Option ℤ)
  race_walking_30km_50km : CompetitionCategory → Option (ℤ → Option ℤ)
  cross_country_finals : CompetitionCategory → Option (ℤ → Option ℤ)

/-- `PlacementCalculator::calculate_placement_score`, translated arm by arm:
the semifinal-qualification tie-break then the dispatch on
(event group, round type), where `.get(..)?.get(..).copied()` becomes an
`Option.bind` chain. -/
def PlacementCalculator.calculate_placement_score (data : PlacementScoreData)
    (input : PlacementScoreCalcInput) : Option ℤ :=
  let place : ℤ :=
    if input.qualified_to_final ∧ input.round_type = RoundType.SemiFinal then 1
    else input.place
  match input.event.to_placement_score_event_group, input.round_type with
  | PlacementScoreEventGroup.TrackAndField, RoundType.Final =>
      (data.track_field_final input.competition_category).bind (fun m => m place)
  | PlacementScoreEventGroup.TrackAndField, RoundType.SemiFinal =>
      if input.size_of_final ≤ 9 then
        (data.track_field_semi_max9 input.competition_category).bind (fun m => m place)
      else
        (data.track_field_semi_10plus input.competition_category).bind (fun m => m place)
  | PlacementScoreEventGroup.Distance5000m3000mSC, RoundType.Final =>
      (data.distance_5000m_3000mSC_final input.competition_category).bind (fun m => m place)
  | PlacementScoreEventGroup.Distance5000m3000mSC, RoundType.SemiFinal =>
      if input.size_of_final ≤ 9 then
        (data.distance_5000m_3000mSC_semi_max9 input.competition_category).bind (fun m => m place)
      else
        (data.distance_5000m_3000mSC_semi_10plus input.competition_category).bind (fun m => m place)
  | PlacementScoreEventGroup.Distance10000m, RoundType.Final =>
      (data.distance_10000m_final input.competition_category).bind (fun m => m place)
  | PlacementScoreEventGroup.Road10km, RoundType.Final =>
      (data.road_10km_final input.competition_category).bind (fun m => m place)
  | PlacementScoreEventGroup.Distance10000m, RoundType.SemiFinal => none
  | PlacementScoreEventGroup.Road10km, RoundType.SemiFinal => none
  | PlacementScoreEventGroup.CombinedEvent, RoundType.Final =>
      (data.combined_events input.competition_category).bind (fun m => m place)
  | PlacementScoreEventGroup.RoadMarathon, RoundType.Final =>
      (data.road_marathon input.competition_category).bind (fun m => m place)
  | PlacementScoreEventGroup.HalfMarathon, RoundType.Final =>
      (data.half_marathon_similar_event input.competition_category).bind (fun m => m place)
  | PlacementScoreEventGroup.RoadRunning, RoundType.Final =>
      (data.road_running_event_group input.competition_category).bind (fun m => m place)
  | PlacementScoreEventGroup.RaceWalking20Km, RoundType.Final =>
      (data.race_walking_20km input.competition_category).bind (fun m => m place)
  | PlacementScoreEventGroup.RaceWalking35Km, RoundType.Final =>
      (data.race_walking_35km input.competition_category).bind (fun m => m place)
  | PlacementScoreEventGroup.RaceWalking35KmSimilar, RoundType.Final =>
      (data.race_walking_30km_50km input.competition_category).bind (fun m => m place)
  | PlacementScoreEventGroup.CrossCountry, RoundType.Final =>
      (data.cross_country_finals input.competition_category).bind (fun m => m place)
  | _, RoundType.SemiFinal => none
  | _, RoundType.Other => none

/-- `init_placement_score_calculator`: the `OnceLock` static `CALCULATOR`
modelled as explicit `Option` state, the serde parse of the embedded dataset
as the `parsed` argument. -/
def init_placement_score_calculator (state : Option PlacementScoreData)
    (parsed : Except String PlacementScoreData) :
    Except String Unit × Option PlacementScoreData :=
  match parsed with
  | Except.error e => (Except.error e, state)
  | Except.ok data =>
      match state with
      | none => (Except.ok (), some data)
      | some old => (Except.error "Calculator already initialized", some old)

/-- Free function `calculate_placement_score`: `CALCULATOR.get()?` then the
method. -/
def calculate_placement_score (state : Option PlacementScoreData)
    (input : PlacementScoreCalcInput) : Option ℤ :=
  match state with
  | none => none
  | some data => PlacementCalculator.calculate_placement_score data input

/-- Spec-side description of the sub-table selection of §4.4 of the spec:
which of the sixteen sub-tables (if any) is consulted for a given event
group, round type and size of final.  Written from the words of the spec, to
be compared with the dispatch of the source. -/
def placement_sub_table (data : PlacementScoreData)
    (group : PlacementScoreEventGroup) (round_type : RoundType)
    (size_of_final : ℤ) : Option (CompetitionCategory → Option (ℤ → Option ℤ)) :=
  match round_type with
  | RoundType.Other => none
  | RoundType.Final =>
      match group with
      | PlacementScoreEventGroup.TrackAndField => some data.track_field_final
      | PlacementScoreEventGroup.Distance5000m3000mSC => some data.distance_5000m_3000mSC_final
      | PlacementScoreEventGroup.Distance10000m => some data.distance_10000m_final
      | PlacementScoreEventGroup.Road10km => some data.road_10km_final
      | PlacementScoreEventGroup.CombinedEvent => some data.combined_events
      | PlacementScoreEventGroup.RoadMarathon => some data.road_marathon
      | PlacementScoreEventGroup.HalfMarathon => some data.half_marathon_similar_event
      | PlacementScoreEventGroup.RoadRunning => some data.road_running_event_group
      | PlacementScoreEventGroup.RaceWalking20Km => some data.race_walking_20km
      | PlacementScoreEventGroup.RaceWalking35Km => some data.race_walking_35km
      | PlacementScoreEventGroup.RaceWalking35KmSimilar => some data.race_walking_30km_50km
      | PlacementScoreEventGroup.CrossCountry => some data.cross_country_finals
  | RoundType.SemiFinal =>
      match group with
      | PlacementScoreEventGroup.TrackAndField =>
          if size_of_final ≤ 9 then some data.track_field_semi_max9
          else some data.track_field_semi_10plus
      | PlacementScoreEventGroup.Distance5000m3000mSC =>
          if size_of_final ≤ 9 then some data.distance_5000m_3000mSC_semi_max9
          else some data.distance_5000m_3000mSC_semi_10plus
      | _ => none

/-- Spec-side twin of the placement resolution that always uses the literal
place field (no semifinal tie-break), written from the words of the spec. -/
def calculate_placement_score_literal (data : PlacementScoreData)
    (input : PlacementScoreCalcInput) : Option ℤ :=
  (placement_sub_table data input.event.to_placement_score_event_group
      input.round_type input.size_of_final).bind
    (fun sub => (sub input.competition_category).bind (fun m => m input.place))

/-- Rust `str::split(sep)` modelled on character lists: splitting the empty
string yields one empty part, and every separator occurrence starts a new
part. -/
def split_on_char (sep : Char) : List Char → List (List Char)
| [] => [[]]
| c :: cs =>
    if c = sep then [] :: split_on_char sep cs
    else
      match split_on_char sep cs with
      | [] => [[c]]
      | p :: ps => (c :: p) :: ps

/-- Rust `str::trim` modelled on character lists: strip leading and trailing
whitespace. -/
def rust_trim (cs : List Char) : List Char :=
  ((cs.dropWhile Char.isWhitespace).reverse.dropWhile Char.isWhitespace).reverse

/-- Accumulating decimal-digit evaluator: `none` as soon as a non-digit is
met. -/
def digits_val (acc : ℕ) : List Char → Option ℕ
| [] => some acc
| c :: cs => if c.isDigit then digits_val (acc * 10 + (c.toNat - 48)) cs else none

/-- Modelled from the spec: the numeric parsing of one time component ("any
non-numeric part is an error").  This models Rust `str::parse::<f64>`
(which is standard-library code, not part of this repository) restricted to
finite plain decimal numerals: an optional sign, digits, and at most one
decimal point with at least one digit overall; special forms (exponents,
`inf`, `NaN`) are outside the model. -/
def parse_f64 (cs : List Char) : Option ℚ :=
  let signed : ℚ × List Char :=
    match cs with
    | '-' :: rest => (-1, rest)
    | '+' :: rest => (1, rest)
    | rest => (1, rest)
  match split_on_char '.' signed.2 with
  | [int_part] =>
      if int_part = [] then none
      else (digits_val 0 int_part).map (fun n => signed.1 * (n : ℚ))
  | [int_part, frac_part] =>
      if int_part = [] ∧ frac_part = [] then none
      else
        (digits_val 0 int_part).bind (fun n =>
          (digits_val 0 frac_part).map (fun f =>
            signed.1 * ((n : ℚ) + (f : ℚ) / (10 ^ frac_part.length))))
  | _ => none

/-- `Event::parse_time_to_seconds`, from `src/models/performance.rs`: trim,
split on `:`, and combine one, two or three numeric components. -/
def Event.parse_time_to_seconds (time_str : String) : Except String ℚ :=
  let trimmed := rust_trim time_str.toList
  let parts := split_on_char ':' trimmed
  match parts with
  | [p0] =>
      match parse_f64 p0 with
      | some v => Except.ok v
      | none => Except.error ("Invalid seconds format: " ++ String.mk trimmed)
  | [p0, p1] =>
      match parse_f64 p0 with
      | none => Except.error ("Invalid minutes: " ++ String.mk p0)
      | some minutes =>
          match parse_f64 p1 with
          | none => Except.error ("Invalid seconds: " ++ String.mk p1)
          | some seconds => Except.ok (minutes * 60 + seconds)
  | [p0, p1, p2] =>
      match parse_f64 p0 with
      | none => Except.error ("Invalid hours: " ++ String.mk p0)
      | some hours =>
          match parse_f64 p1 with
          | none => Except.error ("Invalid minutes: " ++ String.mk p1)
          | some minutes =>
              match parse_f64 p2 with
              | none => Except.error ("Invalid seconds: " ++ String.mk p2)
              | some seconds => Except.ok (hours * 3600 + minutes * 60 + seconds)
  | _ =>
      Except.error ("Invalid time format: " ++ String.mk trimmed
        ++ ". Expected formats: ss.mmm, mm:ss.mmm, or hh:mm:ss.mmm")

/-- C3: `calculate_wind_adjustment` is total on optional wind speeds and
satisfies exactly: no wind information gives -30; a reading v ≤ 0 gives
-v * 6 (so 0 maps to 0 and -1 to 6); a tailwind 0 < v ≤ 2 gives 0; and a
tailwind v > 2 gives -(v * 6), the penalty computed from zero rather than
from the 2.0 threshold, so 2.1 maps to -12.6 and not -0.6. -/
theorem calculate_wind_adjustment_spec :
    calculate_wind_adjustment none = -30 ∧
    (∀ v : ℚ, v ≤ 0 → calculate_wind_adjustment (some v) = -v * 6) ∧
    (∀ v : ℚ, 0 < v → v ≤ 2 → calculate_wind_adjustment (some v) = 0) ∧
    (∀ v : ℚ, 2 < v → calculate_wind_adjustment (some v) = -(v * 6)) ∧
    calculate_wind_adjustment (some 0) = 0 ∧
    calculate_wind_adjustment (some (-1)) = 6 ∧
    calculate_wind_adjustment (some 2.1) = -12.6 := by
  refine ⟨rfl, ?_, ?_, ?_, ?_, ?_, ?_⟩
  · intro v h
    simp only [calculate_wind_adjustment]
    rw [if_neg (not_lt.mpr h)]
  · intro v h1 h2
    simp only [calculate_wind_adjustment]
    rw [if_pos h1, if_neg (not_lt.mpr h2)]
  · intro v h
    simp only [calculate_wind_adjustment]
    rw [if_pos (lt_trans two_pos h), if_pos h]
  · norm_num [calculate_wind_adjustment]
  · norm_num [calculate_wind_adjustment]
  · norm_num [calculate_wind_adjustment]

/-- C3 witness: the quantified cases of `calculate_wind_adjustment_spec`
instantiated at -1, 1 and 3 m/s. -/
theorem calculate_wind_adjustment_spec_witness :
    calculate_wind_adjustment (some (-1)) = -(-1) * 6 ∧
    calculate_wind_adjustment (some 1) = 0 ∧
    calculate_wind_adjustment (some 3) = -(3 * 6) :=
  ⟨calculate_wind_adjustment_spec.2.1 (-1) (by norm_num),
   calculate_wind_adjustment_spec.2.2.1 1 (by norm_num) (by norm_num),
   calculate_wind_adjustment_spec.2.2.2.1 3 (by norm_num)⟩

/-- C4: `calculate_downhill_adjustment` is total on optional drops and
satisfies exactly: no drop information gives 0; a drop ≤ 1 m/km gives 0; and
a drop > 1 m/km gives -(6 + (drop - 1) * 10 * 0.6), so 1.5 maps to -9 and
2.5 to -15. -/
theorem calculate_downhill_adjustment_spec :
    calculate_downhill_adjustment none = 0 ∧
    (∀ d : ℚ, d ≤ 1 → calculate_downhill_adjustment (some d) = 0) ∧
    (∀ d : ℚ, 1 < d → calculate_downhill_adjustment (some d) = -(6 + (d - 1) * 10 * 0.6)) ∧
    calculate_downhill_adjustment (some 1.5) = -9 ∧
    calculate_downhill_adjustment (some 2.5) = -15 := by
  refine ⟨rfl, ?_, ?_, ?_, ?_⟩
  · intro d h
    simp only [calculate_downhill_adjustment]
    rw [if_pos h]
  · intro d h
    simp only [calculate_downhill_adjustment]
    rw [if_neg (not_le.mpr h)]
    norm_num
  · norm_num [calculate_downhill_adjustment]
  · norm_num [calculate_downhill_adjustment]

/-- C4 witness: the quantified cases of `calculate_downhill_adjustment_spec`
instantiated at drops of 1 and 2 m/km. -/
theorem calculate_downhill_adjustment_spec_witness :
    calculate_downhill_adjustment (some 1) = 0 ∧
    calculate_downhill_adjustment (some 2) = -(6 + (2 - 1) * 10 * 0.6) :=
  ⟨calculate_downhill_adjustment_spec.2.1 1 (by norm_num),
   calculate_downhill_adjustment_spec.2.2.1 2 (by norm_num)⟩

/-- C9: for each once-initialized reference table, the first successful
load/init succeeds and stores the parsed table; a later load/init attempt
fails with a distinct already-initialized error and leaves the stored table
unchanged for every parse outcome; coefficient lookup before a successful
load fails with the not-loaded `Result` error (distinct from the
already-loaded error); and placement lookup before initialization returns
`none`. -/
theorem reference_table_once_init_spec :
    (∀ t : CoefficientsTable,
      load_coefficients none (Except.ok t) = (Except.ok (), some t)) ∧
    (∀ old t : CoefficientsTable,
      load_coefficients (some old) (Except.ok t) =
        (Except.error "Coefficients already loaded.", some old)) ∧
    (∀ (old : CoefficientsTable) (parsed : Except String CoefficientsTable),
      (load_coefficients (some old) parsed).2 = some old) ∧
    ("Coefficients already loaded." ≠
      "Coefficients not loaded. Call load_coefficients() first.") ∧
    (∀ (p : ℚ) (g : Gender) (s : String),
      calculate_result_score none p g s =
        Except.error "Coefficients not loaded. Call load_coefficients() first.") ∧
    (∀ d : PlacementScoreData,
      init_placement_score_calculator none (Except.ok d) = (Except.ok (), some d)) ∧
    (∀ old d : PlacementScoreData,
      init_placement_score_calculator (some old) (Except.ok d) =
        (Except.error "Calculator already initialized", some old)) ∧
    (∀ (old : PlacementScoreData) (parsed : Except String PlacementScoreData),
      (init_placement_score_calculator (some old) parsed).2 = some old) ∧
    (∀ input : PlacementScoreCalcInput, calculate_placement_score none input = none) := by
  refine ⟨fun t => rfl, fun old t => rfl, ?_, by decide, fun p g s => rfl,
    fun d => rfl, fun old d => rfl, ?_, fun input => rfl⟩
  · intro old parsed
    cases parsed <;> rfl
  · intro old parsed
    cases parsed <;> rfl

/-- C1: for every input, `calculate_world_athletics_score` propagates the
error of the result-score resolver unchanged, and on success returns the
resolved result score, plus the wind adjustment exactly when the event is
wind-affected (one of 100m, 200m, 100m Hurdle, 110m Hurdle, Long Jump,
Triple Jump), plus the downhill adjustment exactly when the event is a road
running event, plus the placement bonus (0 when the placement resolver
returns `none` or no placement info is supplied). -/
theorem calculate_world_athletics_score_spec :
    (∀ (input : WorldAthleticsScoreInput)
       (rfn : ℚ → Gender → String → Except String ℚ)
       (pfn : PlacementScoreCalcInput → Option ℤ) (e : String),
      rfn input.performance input.gender input.event.to_string = Except.error e →
      calculate_world_athletics_score input rfn pfn = Except.error e) ∧
    (∀ (input : WorldAthleticsScoreInput)
       (rfn : ℚ → Gender → String → Except String ℚ)
       (pfn : PlacementScoreCalcInput → Option ℤ) (r : ℚ),
      rfn input.performance input.gender input.event.to_string = Except.ok r →
      calculate_world_athletics_score input rfn pfn = Except.ok
        (r + (if is_wind_affected_event input.event then
                calculate_wind_adjustment input.wind_speed else 0)
           + (if is_road_running_event input.event then
                calculate_downhill_adjustment input.net_downhill else 0)
           + (match input.placement_info with
              | some placement_info =>
                  (((pfn { event := input.event
                           competition_category := placement_info.competition_category
                           round_type := placement_info.round
                           place := placement_info.place
                           qualified_to_final := placement_info.qualified_to_final
                           size_of_final := placement_info.size_of_final }).getD 0 : ℤ) : ℚ)
              | none => 0))) ∧
    (∀ e : Event, is_wind_affected_event e = true ↔
      e ∈ [Event.TrackAndField TrackAndFieldEvent.M100,
           Event.TrackAndField TrackAndFieldEvent.M200,
           Event.TrackAndField TrackAndFieldEvent.M100H,
           Event.TrackAndField TrackAndFieldEvent.M110H,
           Event.TrackAndField TrackAndFieldEvent.LJ,
           Event.TrackAndField TrackAndFieldEvent.TJ]) ∧
    (∀ e : Event, is_road_running_event e = true ↔
      ∃ r : RoadRunningEvent, e = Event.RoadRunning r) := by
  refine ⟨?_, ?_, ?_, ?_⟩
  · intro input rfn pfn e h
    simp only [calculate_world_athletics_score, h]
  · intro input rfn pfn r h
    obtain ⟨g, ev, p, w, nd, pi⟩ := input
    simp only [calculate_world_athletics_score, h] at *
    cases pi <;>
      by_cases hw : is_wind_affected_event ev <;>
      by_cases hr : is_road_running_event ev <;>
      simp [hw, hr]
  · intro e
    cases e with
    | TrackAndField t => cases t <;> simp [is_wind_affected_event]
    | CombinedEvents c => cases c <;> simp [is_wind_affected_event]
    | RoadRunning c => cases c <;> simp [is_wind_affected_event]
    | RaceWalking c => cases c <;> simp [is_wind_affected_event]
    | CrossCountry c => cases c <;> simp [is_wind_affected_event]
  · intro e
    cases e <;> simp [is_road_running_event]

/-- C1 witness: the success case of `calculate_world_athletics_score_spec`
at a concrete men's 100m input with a stub result-score resolver returning
the raw performance and a stub placement resolver, and the error case at a
resolver that fails. -/
theorem calculate_world_athletics_score_spec_witness :
    calculate_world_athletics_score
      { gender := Gender.Men
        event := Event.TrackAndField TrackAndFieldEvent.M100
        performance := 10.5
        wind_speed := some 0
        net_downhill := none
        placement_info := none }
      (fun p _ _ => Except.ok p) (fun _ => some 100) = Except.ok 10.5 ∧
    calculate_world_athletics_score
      { gender := Gender.Men
        event := Event.TrackAndField TrackAndFieldEvent.M100
        performance := 10.5
        wind_speed := some 0
        net_downhill := none
        placement_info := none }
      (fun _ _ _ => Except.error "no table") (fun _ => some 100) =
      Except.error "no table" := by
  constructor
  · have h := calculate_world_athletics_score_spec.2.1
      { gender := Gender.Men
        event := Event.TrackAndField TrackAndFieldEvent.M100
        performance := 10.5
        wind_speed := some 0
        net_downhill := none
        placement_info := none }
      (fun p _ _ => Except.ok p) (fun _ => some 100) 10.5 rfl
    simpa [is_wind_affected_event, is_road_running_event,
      calculate_wind_adjustment] using h
  · exact calculate_world_athletics_score_spec.1
      { gender := Gender.Men
        event := Event.TrackAndField TrackAndFieldEvent.M100
        performance := 10.5
        wind_speed := some 0
        net_downhill := none
        placement_info := none }
      (fun _ _ _ => Except.error "no table") (fun _ => some 100) "no table" rfl

/-- C10: noninterference of ungated adjustments: for an event that is not
wind-affected, the score is identical across any two wind-speed inputs
(including absent vs present); for an event that is not road running, the
score is identical across any two net-downhill inputs. -/
theorem score_noninterference :
    (∀ (g : Gender) (ev : Event) (p : ℚ) (w1 w2 nd : Option ℚ)
       (pi : Option PlacementInfo)
       (rfn : ℚ → Gender → String → Except String ℚ)
       (pfn : PlacementScoreCalcInput → Option ℤ),
      is_wind_affected_event ev = false →
      calculate_world_athletics_score ⟨g, ev, p, w1, nd, pi⟩ rfn pfn =
        calculate_world_athletics_score ⟨g, ev, p, w2, nd, pi⟩ rfn pfn) ∧
    (∀ (g : Gender) (ev : Event) (p : ℚ) (w nd1 nd2 : Option ℚ)
       (pi : Option PlacementInfo)
       (rfn : ℚ → Gender → String → Except String ℚ)
       (pfn : PlacementScoreCalcInput → Option ℤ),
      is_road_running_event ev = false →
      calculate_world_athletics_score ⟨g, ev, p, w, nd1, pi⟩ rfn pfn =
        calculate_world_athletics_score ⟨g, ev, p, w, nd2, pi⟩ rfn pfn) := by
  constructor
  · intro g ev p w1 w2 nd pi rfn pfn h
    simp [calculate_world_athletics_score, h]
  · intro g ev p w nd1 nd2 pi rfn pfn h
    simp [calculate_world_athletics_score, h]

/-- C10 witness: `score_noninterference` at the 400m (not wind-affected,
wind none vs 3 m/s) and at the 100m (not road running, downhill none vs
2.5 m/km). -/
theorem score_noninterference_witness :
    calculate_world_athletics_score
      ⟨Gender.Men, Event.TrackAndField TrackAndFieldEvent.M400, 45, none, none, none⟩
      (fun p _ _ => Except.ok p) (fun _ => none) =
    calculate_world_athletics_score
      ⟨Gender.Men, Event.TrackAndField TrackAndFieldEvent.M400, 45, some 3, none, none⟩
      (fun p _ _ => Except.ok p) (fun _ => none) ∧
    calculate_world_athletics_score
      ⟨Gender.Men, Event.TrackAndField TrackAndFieldEvent.M100, 10.5, some 0, none, none⟩
      (fun p _ _ => Except.ok p) (fun _ => none) =
    calculate_world_athletics_score
      ⟨Gender.Men, Event.TrackAndField TrackAndFieldEvent.M100, 10.5, some 0, some 2.5, none⟩
      (fun p _ _ => Except.ok p) (fun _ => none) :=
  ⟨score_noninterference.1 Gender.Men (Event.TrackAndField TrackAndFieldEvent.M400)
      45 none (some 3) none none (fun p _ _ => Except.ok p) (fun _ => none) rfl,
   score_noninterference.2 Gender.Men (Event.TrackAndField TrackAndFieldEvent.M100)
      10.5 (some 0) none (some 2.5) none (fun p _ _ => Except.ok p) (fun _ => none) rfl⟩

/-- C5: for a semifinal round with `qualified_to_final = true`, the placement
resolution performs its table lookups with effective place 1 regardless of
the literal place field; for every other input (Final rounds with
`qualified_to_final = true` included) the literal place field is used.
`calculate_placement_score_literal` is the spec-side twin that always looks
up the literal place. -/
theorem placement_semifinal_tiebreak_spec :
    ∀ (data : PlacementScoreData) (input : PlacementScoreCalcInput),
      PlacementCalculator.calculate_placement_score data input =
        (if input.round_type = RoundType.SemiFinal ∧ input.qualified_to_final = true then
          calculate_placement_score_literal data
            { event := input.event
              competition_category := input.competition_category
              round_type := input.round_type
              place := 1
              qualified_to_final := input.qualified_to_final
              size_of_final := input.size_of_final }
        else calculate_placement_score_literal data input) := by
  intro data input
  obtain ⟨ev, cat, rt, pl, q, sz⟩ := input
  simp only [PlacementCalculator.calculate_placement_score,
    calculate_placement_score_literal, placement_sub_table]
  cases hg : ev.to_placement_score_event_group <;> cases rt <;> cases q <;>
    simp [hg] <;>
    (try (by_cases hsz : sz ≤ 9 <;> simp [hsz]))

/-- C6: the placement resolution equals the lookup of the effective place
under the competition category in the sub-table selected by
`placement_sub_table` (which yields no table for SemiFinal rounds outside
the TrackAndField and Distance5000m3000mSC groups and for Other rounds, and
chooses the small-final semifinal sub-table exactly when
`size_of_final ≤ 9`), so `none` is returned exactly when no sub-table
exists or a category or place key is missing; and lookup through the
uninitialized calculator returns `none`. -/
theorem placement_lookup_characterization :
    (∀ (data : PlacementScoreData) (input : PlacementScoreCalcInput),
      PlacementCalculator.calculate_placement_score data input =
        (placement_sub_table data input.event.to_placement_score_event_group
            input.round_type input.size_of_final).bind
          (fun sub => (sub input.competition_category).bind (fun m => m
            (if input.qualified_to_final ∧ input.round_type = RoundType.SemiFinal
             then 1 else input.place)))) ∧
    (∀ input : PlacementScoreCalcInput, calculate_placement_score none input = none) := by
  refine ⟨?_, fun input => rfl⟩
  intro data input
  obtain ⟨ev, cat, rt, pl, q, sz⟩ := input
  simp only [PlacementCalculator.calculate_placement_score, placement_sub_table]
  cases hg : ev.to_placement_score_event_group <;> cases rt <;> cases q <;>
    simp [hg] <;>
    (try (by_cases hsz : sz ≤ 9 <;> simp [hsz]))

/-- `rust_round` maps every rational to within 1/2 of it: it is a
round-to-nearest, not a floor. -/
theorem rust_round_nearest (q : ℚ) : |rust_round q - q| ≤ 1/2 := by
  unfold rust_round
  split
  · rw [show -((round (-q) : ℤ) : ℚ) - q = -(((round (-q) : ℤ) : ℚ) - (-q)) by ring, abs_neg,
      abs_sub_comm]
    exact abs_sub_round (-q)
  · rw [abs_sub_comm]
    exact abs_sub_round q

/-- `rust_round` always yields an integer. -/
theorem rust_round_int (q : ℚ) : ∃ z : ℤ, rust_round q = (z : ℚ) := by
  unfold rust_round
  split
  · exact ⟨-(round (-q)), by push_cast; ring⟩
  · exact ⟨round q, rfl⟩

/-- Successful result-score resolution is the rounded quadratic. -/
theorem calculate_result_score_of_coefficients (t : CoefficientsTable)
    (g : Gender) (s : String) (p a b c : ℚ)
    (h : t.get_coefficients g s = some ⟨a, b, c⟩) :
    t.calculate_result_score p g s = Except.ok (rust_round (a * p ^ 2 + b * p + c)) := by
  have hq : a * p * p + b * p + c = a * p ^ 2 + b * p + c := by ring
  simp only [CoefficientsTable.calculate_result_score, h, hq]

/-- C2: when the coefficient table has an entry (a, b, c) for the gender and
event string, result-score resolution returns a*p^2 + b*p + c rounded to the
nearest integer (within 1/2 of the raw value, always an integer — a
round-to-nearest, not a floor); for men's 100m with the known coefficients
and p = 10.5 it returns 1040; and when no entry exists it fails with a
coefficients-not-found error naming both the gender and the event. -/
theorem calculate_result_score_spec :
    (∀ (t : CoefficientsTable) (g : Gender) (s : String) (p a b c : ℚ),
      t.get_coefficients g s = some ⟨a, b, c⟩ →
      t.calculate_result_score p g s = Except.ok (rust_round (a * p ^ 2 + b * p + c)) ∧
      |rust_round (a * p ^ 2 + b * p + c) - (a * p ^ 2 + b * p + c)| ≤ 1/2 ∧
      ∃ z : ℤ, rust_round (a * p ^ 2 + b * p + c) = (z : ℚ)) ∧
    (∀ (t : CoefficientsTable) (g : Gender) (s : String) (p : ℚ),
      t.get_coefficients g s = none →
      t.calculate_result_score p g s =
        Except.error ("Coefficients not found for gender \"" ++ g.to_string
          ++ "\" and event: " ++ s)) ∧
    (∀ t : CoefficientsTable,
      t.get_coefficients Gender.Men "100m" =
        some ⟨24.642211664166098, -837.7135408530303, 7119.3125116789015⟩ →
      t.calculate_result_score 10.5 Gender.Men "100m" = Except.ok 1040) := by
  refine ⟨?_, ?_, ?_⟩
  · intro t g s p a b c h
    exact ⟨calculate_result_score_of_coefficients t g s p a b c h,
      rust_round_nearest _, rust_round_int _⟩
  · intro t g s p h
    simp only [CoefficientsTable.calculate_result_score, h]
  · intro t h
    rw [calculate_result_score_of_coefficients t Gender.Men "100m" 10.5 _ _ _ h]
    have : rust_round ((24.642211664166098 : ℚ) * 10.5 ^ 2
        + (-837.7135408530303 : ℚ) * 10.5 + 7119.3125116789015) = 1040 := by
      unfold rust_round
      rw [if_neg (by norm_num)]
      norm_num [round_eq]
    rw [this]

/-- A concrete coefficient table holding the men's 100m entry of the test
dataset of `src/scoring_logic/coefficients.rs`. -/
def test_coefficients_table : CoefficientsTable :=
  { men := ⟨fun s => if s = "100m" then
      some ⟨24.642211664166098, -837.7135408530303, 7119.3125116789015⟩ else none⟩
    women := ⟨fun _ => none⟩ }

/-- C2 witness: `calculate_result_score_spec` at the concrete table, both the
10.5-second men's 100m success case and a missing-event error case. -/
theorem calculate_result_score_spec_witness :
    test_coefficients_table.calculate_result_score 10.5 Gender.Men "100m" =
      Except.ok 1040 ∧
    test_coefficients_table.calculate_result_score 10 Gender.Men "LJ" =
      Except.error "Coefficients not found for gender \"men\" and event: LJ" :=
  ⟨calculate_result_score_spec.2.2 test_coefficients_table rfl,
   calculate_result_score_spec.2.1 test_coefficients_table Gender.Men "LJ" 10 rfl⟩

/-- C7: for every event of the supported set, converting to the canonical
display string and back recovers exactly the original event, so the
event-to-string mapping is injective over all enumerated variants. -/
theorem event_string_roundtrip :
    ∀ e ∈ Event.all_variants, Event.from_string e.to_string = some e := by decide

/-- C7 witness: `event_string_roundtrip` at the 35km road race walk. -/
theorem event_string_roundtrip_witness :
    Event.from_string (Event.RaceWalking RaceWalkingEvent.Road35kmW).to_string =
      some (Event.RaceWalking RaceWalkingEvent.Road35kmW) :=
  event_string_roundtrip (Event.RaceWalking RaceWalkingEvent.Road35kmW) (by decide)

/-- C8: `parse_time_to_seconds` splits the trimmed input on `:`; with one
part it returns the part parsed as seconds, with two parts minutes*60 +
seconds, with three parts hours*3600 + minutes*60 + seconds; with any other
part count or any part failing numeric parsing it returns (never panics) an
error message identifying the failing component; and concretely "10.50"
parses to 10.50, "1:30.25" to 90.25, "2:15:30.50" to 8130.50, while
"1:2:3:4" and "" are errors. -/
theorem parse_time_to_seconds_spec :
    (∀ (s : String) (p0 : List Char),
      split_on_char ':' (rust_trim s.toList) = [p0] →
      Event.parse_time_to_seconds s =
        (match parse_f64 p0 with
         | some v => Except.ok v
         | none => Except.error ("Invalid seconds format: " ++ String.mk (rust_trim s.toList)))) ∧
    (∀ (s : String) (p0 p1 : List Char),
      split_on_char ':' (rust_trim s.toList) = [p0, p1] →
      Event.parse_time_to_seconds s =
        (match parse_f64 p0 with
         | none => Except.error ("Invalid minutes: " ++ String.mk p0)
         | some minutes =>
             match parse_f64 p1 with
             | none => Except.error ("Invalid seconds: " ++ String.mk p1)
             | some seconds => Except.ok (minutes * 60 + seconds))) ∧
    (∀ (s : String) (p0 p1 p2 : List Char),
      split_on_char ':' (rust_trim s.toList) = [p0, p1, p2] →
      Event.parse_time_to_seconds s =
        (match parse_f64 p0 with
         | none => Except.error ("Invalid hours: " ++ String.mk p0)
         | some hours =>
             match parse_f64 p1 with
             | none => Except.error ("Invalid minutes: " ++ String.mk p1)
             | some minutes =>
                 match parse_f64 p2 with
                 | none => Except.error ("Invalid seconds: " ++ String.mk p2)
                 | some seconds => Except.ok (hours * 3600 + minutes * 60 + seconds))) ∧
    (∀ (s : String) (parts : List (List Char)),
      split_on_char ':' (rust_trim s.toList) = parts →
      parts.length ≠ 1 → parts.length ≠ 2 → parts.length ≠ 3 →
      Event.parse_time_to_seconds s =
        Except.error ("Invalid time format: " ++ String.mk (rust_trim s.toList)
          ++ ". Expected formats: ss.mmm, mm:ss.mmm, or hh:mm:ss.mmm")) ∧
    Event.parse_time_to_seconds "10.50" = Except.ok 10.50 ∧
    Event.parse_time_to_seconds "1:30.25" = Except.ok 90.25 ∧
    Event.parse_time_to_seconds "2:15:30.50" = Except.ok 8130.50 ∧
    Event.parse_time_to_seconds "1:2:3:4" =
      Except.error "Invalid time format: 1:2:3:4. Expected formats: ss.mmm, mm:ss.mmm, or hh:mm:ss.mmm" ∧
    Event.parse_time_to_seconds "" = Except.error "Invalid seconds format: " := by
  refine ⟨?_, ?_, ?_, ?_, ?_, ?_, ?_, ?_, ?_⟩
  · intro s p0 h
    simp only [Event.parse_time_to_seconds, h]
  · intro s p0 p1 h
    simp only [Event.parse_time_to_seconds, h]
  · intro s p0 p1 p2 h
    simp only [Event.parse_time_to_seconds, h]
  · intro s parts h h1 h2 h3
    match parts, h1, h2, h3 with
    | [], _, _, _ => simp only [Event.parse_time_to_seconds, h]
    | a :: b :: c :: d :: rest, _, _, _ => simp only [Event.parse_time_to_seconds, h]
    | [a], h1, _, _ => exact absurd rfl h1
    | [a, b], _, h2, _ => exact absurd rfl h2
    | [a, b, c], _, _, h3 => exact absurd rfl h3
  · have e1 : Event.parse_time_to_seconds "10.50" =
        Except.ok (1 * (((10 : ℕ) : ℚ) + ((50 : ℕ) : ℚ) / 10 ^ 2)) := rfl
    rw [e1]
    norm_num
  · have e2 : Event.parse_time_to_seconds "1:30.25" =
        Except.ok (1 * ((1 : ℕ) : ℚ) * 60
          + 1 * (((30 : ℕ) : ℚ) + ((25 : ℕ) : ℚ) / 10 ^ 2)) := rfl
    rw [e2]
    norm_num
  · have e3 : Event.parse_time_to_seconds "2:15:30.50" =
        Except.ok (1 * ((2 : ℕ) : ℚ) * 3600 + 1 * ((15 : ℕ) : ℚ) * 60
          + 1 * (((30 : ℕ) : ℚ) + ((50 : ℕ) : ℚ) / 10 ^ 2)) := rfl
    rw [e3]
    norm_num
  · rfl
  · rfl

/-- C8 witness: the quantified one-part and four-part cases of
`parse_time_to_seconds_spec` instantiated at "9.58" and "1:2:3:4". -/
theorem parse_time_to_seconds_spec_witness :
    Event.parse_time_to_seconds "9.58" =
      (match parse_f64 ['9', '.', '5', '8'] with
       | some v => Except.ok v
       | none => Except.error ("Invalid seconds format: " ++ String.mk (rust_trim "9.58".toList))) ∧
    Event.parse_time_to_seconds "1:2:3:4" =
      Except.error ("Invalid time format: " ++ String.mk (rust_trim "1:2:3:4".toList)
        ++ ". Expected formats: ss.mmm, mm:ss.mmm, or hh:mm:ss.mmm") :=
  ⟨parse_time_to_seconds_spec.1 "9.58" ['9', '.', '5', '8'] rfl,
   parse_time_to_seconds_spec.2.2.2.1 "1:2:3:4"
     [['1'], ['2'], ['3'], ['4']] rfl (by decide) (by decide) (by decide)⟩

end WA
